import Mathlib

/-!
Shallow embedding of the network-resource allocation core of `src/api.py`
(the aarch64 control plane).

The two allocators embedded here are:

* `get_ips` (api.py lines 65-79): scans host identifiers 2..253 in ascending
  order and returns the first IPv4/IPv6 address pair whose IPv4 string is not
  present in the `containers` collection; raises an exception when the config
  document is absent; falls off the end of the loop (returning `None`) when
  every identifier is taken.

* `add_host` (api.py lines 129-157): collects the prefixes of every host of
  every PoP, enumerates the /48 subnets of the configured parent block in
  descending order, assigns to the candidate field every free subnet it meets
  (the loop has no break, so the last assignment - the numerically lowest free
  /48 - wins), fails with HTTP 500 when the field was never assigned, and
  otherwise pushes the host onto the PoP document selected by name, failing
  with HTTP 422 when no PoP matched.

Database collections are passed explicitly: the config document as an
`Option` (a `find_one` that may miss), the `pops` collection as a list of
documents, the `containers` collection as the list of its `ip4` fields.
Machine-level IPv6 values are 128-bit naturals; `ipaddress.ip_network`
parsing is modelled by carrying the parsed network (numeric address and
length) directly in the config document.  Python field name `prefix` is
rendered `pfx` throughout (the word itself is a Lean keyword).
-/

/-- Errors a request can end in.  `exn` is a plain `raise Exception(msg)`,
`typeError` an unhandled `TypeError` (subscripting `None`), `valueError` an
unhandled `ValueError` from the `ipaddress` library, and `http` a FastAPI
`HTTPException` with its status code and detail. -/
inductive ApiError where
  | exn : String → ApiError
  | typeError : String → ApiError
  | valueError : String → ApiError
  | http : Nat → String → ApiError
deriving DecidableEq, Repr

/-- Fields of the config document read by `get_ips` (source names
`prefix4` and `prefix6`). -/
structure IpConfig where
  pre4 : String
  pre6 : String
deriving DecidableEq, Repr

/-- An IPv6 network: 128-bit network address and prefix length, the numeric
content of a Python `ipaddress.IPv6Network`. -/
structure IPv6Net where
  addr : Nat
  plen : Nat
deriving DecidableEq, Repr

/-- Config document read by `add_host`: the parsed parent block stored under
the source field name `prefix`. -/
structure ParentConfig where
  pfx : IPv6Net
deriving DecidableEq, Repr

/-- An incoming host request after `_host["ip"] = str(_host["ip"])`:
the fields of the pydantic `Host` model that `add_host` reads. -/
structure HostReq where
  pop : String
  ip : String
deriving DecidableEq, Repr

/-- A host document stored inside a PoP document: the request fields plus
the assigned `prefix` field (rendered `pfx`). -/
structure HostDoc where
  pop : String
  ip : String
  pfx : String
deriving DecidableEq, Repr

/-- A document of the `pops` collection. -/
structure PoPDoc where
  name : String
  hosts : List HostDoc
deriving DecidableEq, Repr

/-- The slice of the database that `add_host` touches: the config document
(`None` when absent) and the `pops` collection in insertion order. -/
structure Db where
  config : Option ParentConfig
  pops : List PoPDoc
deriving DecidableEq, Repr

/-! IPv6 text form, mirroring `ipaddress._string_from_ip_int` and
`_compress_hextets` of the Python standard library, so that `str(slash48)`
is embedded faithfully. -/

/-- Lowercase hexadecimal digits of a natural, no leading zeros
(Python `"%x" % n`). -/
def hexStr (n : Nat) : String :=
  String.mk (Nat.toDigits 16 n)

/-- The eight hextet strings of a 128-bit address, most significant first. -/
def hextetsOf (a : Nat) : List String :=
  (List.range 8).map fun i => hexStr (a / 2 ^ (16 * (7 - i)) % 2 ^ 16)

/-- Scan for the longest run of `"0"` hextets (first such run on ties),
mirroring the loop of `_compress_hextets`: arguments are the remaining
hextets, the current index, the current run start and length, and the best
run start and length so far. -/
def zeroRunLoop : List String → Nat → Option Nat → Nat → Option Nat → Nat → Option Nat × Nat
  | [], _, _, _, bs, bl => (bs, bl)
  | h :: t, idx, ds, dl, bs, bl =>
    if h = "0" then
      let ds' := match ds with
        | none => some idx
        | some s => some s
      let dl' := dl + 1
      if bl < dl' then
        zeroRunLoop t (idx + 1) ds' dl' ds' dl'
      else
        zeroRunLoop t (idx + 1) ds' dl' bs bl
    else
      zeroRunLoop t (idx + 1) none 0 bs bl

/-- Replace the best run of zero hextets (when of length at least 2) by the
empty strings that render as `::`, exactly as `_compress_hextets` does with
its slice assignment. -/
def compressHextets (hx : List String) : List String :=
  match zeroRunLoop hx 0 none 0 none 0 with
  | (some bs, bl) =>
    if 1 < bl then
      let bend := bs + bl
      let hx1 := if bend = hx.length then hx ++ [""] else hx
      let hx2 := hx1.take bs ++ [""] ++ hx1.drop bend
      if bs = 0 then "" :: hx2 else hx2
    else hx
  | (none, _) => hx

/-- Compressed text of a 128-bit IPv6 address. -/
def ip6Str (a : Nat) : String :=
  String.intercalate ":" (compressHextets (hextetsOf a))

/-- Text of an IPv6 network, Python `str(network)`. -/
def net_str (n : IPv6Net) : String :=
  ip6Str n.addr ++ "/" ++ toString n.plen

/-! The address allocator, api.py lines 65-79. -/

/-- Body of the `for address in range(2, 254)` loop of `get_ips`: return on
the first candidate whose IPv4 string is absent from the `containers`
collection, fall through to `None` otherwise. -/
def scanAddresses (cfg : IpConfig) (containers : List String) : List Nat → Option (String × String)
  | [] => none
  | a :: rest =>
    if cfg.pre4 ++ toString a ∈ containers then
      scanAddresses cfg containers rest
    else
      some (cfg.pre4 ++ toString a, cfg.pre6 ++ toString a)

/-- Embedding of `get_ips`: `config` is the result of the `find_one` on the
config collection, `containers` the `ip4` fields of the containers
collection.  Python `range(2, 254)` is `List.range' 2 252`. -/
def get_ips (config : Option IpConfig) (containers : List String) :
    Except ApiError (Option (String × String)) :=
  match config with
  | none => Except.error (ApiError.exn ("Unable to find config document"))
  | some cfg => Except.ok (scanAddresses cfg containers (List.range' 2 252))

/-! The prefix allocator and host-provisioning endpoint, api.py
lines 129-157. -/

/-- Taken prefixes gathered from every host of every PoP, api.py
lines 136-140. -/
def taken_prefixes (pops : List PoPDoc) : List String :=
  pops.flatMap fun p => p.hosts.map HostDoc.pfx

/-- Embedding of `parent_prefix.subnets(new_prefix=48)` from the Python
`ipaddress` library: a `ValueError` when the parent is longer than /48,
otherwise the /48 subnets in ascending numeric order. -/
def subnets48 (net : IPv6Net) : Except ApiError (List IPv6Net) :=
  if 48 < net.plen then
    Except.error (ApiError.valueError ("new prefix must be longer"))
  else
    Except.ok ((List.range (2 ^ (48 - net.plen))).map fun i =>
      { addr := net.addr + i * 2 ^ 80, plen := 48 })

/-- The `for slash48 in ...` loop of api.py lines 145-148: each free subnet
overwrites the accumulator (there is no break), so the result is the last
free element of the traversed list. -/
def assignLoop (taken : List String) (acc : Option String) : List IPv6Net → Option String
  | [] => acc
  | n :: rest =>
    let s := net_str n
    assignLoop taken (if s ∈ taken then acc else some s) rest

/-- Mongo `update_one({"name": name}, {"$push": {"hosts": h}})` on the pops
collection: push onto the first document whose name matches, returning the
new collection and the matched count. -/
def updateOnePush (pops : List PoPDoc) (name : String) (h : HostDoc) : List PoPDoc × Nat :=
  match pops with
  | [] => ([], 0)
  | p :: rest =>
    if p.name = name then
      ({ p with hosts := p.hosts ++ [h] } :: rest, 1)
    else
      let r := updateOnePush rest name h
      (p :: r.1, r.2)

/-- Embedding of `add_host`: returns the response (or the exception the
request died with) together with the database state after the request.
Subscripting an absent config document is a `TypeError`; a parent block
longer than /48 raises inside `subnets`; an unassigned candidate field is
the HTTP 500 capacity error; an unmatched update is the HTTP 422 error. -/
def add_host (db : Db) (host : HostReq) : Except ApiError String × Db :=
  match db.config with
  | none => (Except.error (ApiError.typeError ("NoneType object is not subscriptable")), db)
  | some cfg =>
    match subnets48 cfg.pfx with
    | Except.error e => (Except.error e, db)
    | Except.ok subs =>
      match assignLoop (taken_prefixes db.pops) none subs.reverse with
      | none =>
        (Except.error (ApiError.http 500 ("No available prefixes to assign")), db)
      | some slash48 =>
        if (updateOnePush db.pops host.pop
              { pop := host.pop, ip := host.ip, pfx := slash48 }).2 = 1 then
          (Except.ok ("Host added"),
            { config := db.config,
              pops := (updateOnePush db.pops host.pop
                        { pop := host.pop, ip := host.ip, pfx := slash48 }).1 })
        else
          (Except.error (ApiError.http 422 ("PoP " ++ host.pop ++ " does not exist")),
            { config := db.config,
              pops := (updateOnePush db.pops host.pop
                        { pop := host.pop, ip := host.ip, pfx := slash48 }).1 })

example : ip6Str (0x20010db8 * 2 ^ 96) = "2001:db8::" := by decide
example : ip6Str (0x20010db8 * 2 ^ 96 + 3 * 2 ^ 80) = "2001:db8:3::" := by decide
example : ip6Str 0 = "::" := by decide
example : ip6Str 1 = "::1" := by decide
example : net_str { addr := 0x20010db8 * 2 ^ 96, plen := 48 } = "2001:db8::/48" := by decide
example :
    get_ips (some { pre4 := "10.0.0.", pre6 := "fd00::" }) [] =
      Except.ok (some ("10.0.0.2", "fd00::2")) := by rfl
example :
    get_ips (some { pre4 := "10.0.0.", pre6 := "fd00::" }) ["10.0.0.2"] =
      Except.ok (some ("10.0.0.3", "fd00::3")) := by rfl

/-! Helper lemmas about the embedded loops. -/

/-- The address scan falls through to `none` when every candidate of the
traversed list is taken. -/
theorem scanAddresses_none (cfg : IpConfig) (containers : List String) :
    ∀ l : List Nat, (∀ a ∈ l, cfg.pre4 ++ toString a ∈ containers) →
    scanAddresses cfg containers l = none := by
  intro l
  induction l with
  | nil => intro _; rfl
  | cons a rest ih =>
    intro h
    simp only [scanAddresses]
    rw [if_pos (h a (List.mem_cons_self a rest))]
    exact ih fun b hb => h b (List.mem_cons_of_mem a hb)

/-- The address scan over `range' s n` returns the pair of the least
candidate that is free. -/
theorem scanAddresses_range' (cfg : IpConfig) (containers : List String) :
    ∀ n s a : Nat, s ≤ a → a < s + n →
    cfg.pre4 ++ toString a ∉ containers →
    (∀ b, s ≤ b → b < a → cfg.pre4 ++ toString b ∈ containers) →
    scanAddresses cfg containers (List.range' s n) =
      some (cfg.pre4 ++ toString a, cfg.pre6 ++ toString a) := by
  intro n
  induction n with
  | zero => intro s a h1 h2 _ _; omega
  | succ n ih =>
    intro s a h1 h2 hfree hmin
    rw [List.range'_succ s n 1]
    simp only [scanAddresses]
    rcases eq_or_lt_of_le h1 with heq | hlt
    · subst heq
      rw [if_neg hfree]
    · rw [if_pos (hmin s le_rfl hlt)]
      exact ih (s + 1) a (by omega) (by omega) hfree fun b hb hb2 => hmin b (by omega) hb2

/-- Whatever the assignment loop ends on is not taken, provided the initial
accumulator content (if any) is not taken. -/
theorem assignLoop_not_taken (taken : List String) :
    ∀ (l : List IPv6Net) (acc : Option String) (s : String),
    (∀ t, acc = some t → t ∉ taken) →
    assignLoop taken acc l = some s → s ∉ taken := by
  intro l
  induction l with
  | nil => intro acc s hacc h; exact hacc s h
  | cons n rest ih =>
    intro acc s hacc h
    simp only [assignLoop] at h
    refine ih _ s ?_ h
    intro t ht
    by_cases hmem : net_str n ∈ taken
    · rw [if_pos hmem] at ht
      exact hacc t ht
    · rw [if_neg hmem] at ht
      injection ht with ht2
      subst ht2
      exact hmem

/-- The assignment loop never moves off its accumulator when every traversed
subnet is taken. -/
theorem assignLoop_all_taken (taken : List String) :
    ∀ (l : List IPv6Net) (acc : Option String),
    (∀ n ∈ l, net_str n ∈ taken) → assignLoop taken acc l = acc := by
  intro l
  induction l with
  | nil => intro acc _; rfl
  | cons n rest ih =>
    intro acc h
    simp only [assignLoop]
    rw [if_pos (h n (List.mem_cons_self n rest))]
    exact ih acc fun m hm => h m (List.mem_cons_of_mem n hm)

/-- An update that matches no document leaves the collection unchanged and
reports a zero matched count. -/
theorem updateOnePush_no_match (name : String) (hd : HostDoc) :
    ∀ pops : List PoPDoc, (∀ p ∈ pops, p.name ≠ name) →
    updateOnePush pops name hd = (pops, 0) := by
  intro pops
  induction pops with
  | nil => intro _; rfl
  | cons p rest ih =>
    intro hp
    simp only [updateOnePush]
    rw [if_neg (hp p (List.mem_cons_self p rest))]
    rw [ih fun q hq => hp q (List.mem_cons_of_mem p hq)]

/-- An update reporting matched count one pushed onto the first document of
matching name and left every other document unchanged. -/
theorem updateOnePush_matched (name : String) (hd : HostDoc) :
    ∀ pops : List PoPDoc, (updateOnePush pops name hd).2 = 1 →
    ∃ A p B, pops = A ++ p :: B ∧ (∀ q ∈ A, q.name ≠ name) ∧ p.name = name ∧
      (updateOnePush pops name hd).1 = A ++ { p with hosts := p.hosts ++ [hd] } :: B := by
  intro pops
  induction pops with
  | nil => intro hm; simp [updateOnePush] at hm
  | cons p rest ih =>
    intro hm
    by_cases hp : p.name = name
    · refine ⟨[], p, rest, rfl, by simp, hp, ?_⟩
      simp only [updateOnePush]
      rw [if_pos hp]
      rfl
    · simp only [updateOnePush] at hm
      rw [if_neg hp] at hm
      obtain ⟨A, q, B, hsplit, hA, hq, hres⟩ := ih hm
      refine ⟨p :: A, q, B, by rw [List.cons_append, hsplit], ?_, hq, ?_⟩
      · intro r hr
        rcases List.mem_cons.mp hr with h1 | h1
        · rw [h1]
          exact hp
        · exact hA r h1
      · simp only [updateOnePush]
        rw [if_neg hp, List.cons_append, ← hres]

/-- Pushing one host onto one PoP adds exactly its prefix to the fleet-wide
taken list, up to permutation. -/
theorem taken_prefixes_push (p : PoPDoc) (hd : HostDoc) (B : List PoPDoc) :
    ∀ A : List PoPDoc,
    List.Perm (taken_prefixes (A ++ { p with hosts := p.hosts ++ [hd] } :: B))
      (hd.pfx :: taken_prefixes (A ++ p :: B)) := by
  intro A
  induction A with
  | nil =>
    simp only [List.nil_append, taken_prefixes, List.flatMap_cons, List.map_append,
      List.append_assoc, List.singleton_append]
    exact List.perm_middle
  | cons q A' ih =>
    simp only [List.cons_append, taken_prefixes, List.flatMap_cons, List.append_assoc] at ih ⊢
    exact (List.Perm.append_left _ ih).trans List.perm_middle

/-- Success of `add_host` decomposes into its constituent steps: a present
config document, a successful subnet enumeration, an assigned candidate and
a matched update. -/
theorem add_host_ok_elim (db : Db) (host : HostReq) (m : String) (db' : Db)
    (h : add_host db host = (Except.ok m, db')) :
    ∃ cfg subs s, db.config = some cfg ∧ subnets48 cfg.pfx = Except.ok subs ∧
      assignLoop (taken_prefixes db.pops) none subs.reverse = some s ∧
      (updateOnePush db.pops host.pop { pop := host.pop, ip := host.ip, pfx := s }).2 = 1 ∧
      m = "Host added" ∧
      db' = { config := db.config,
              pops := (updateOnePush db.pops host.pop
                        { pop := host.pop, ip := host.ip, pfx := s }).1 } := by
  unfold add_host at h
  split at h
  · simp at h
  · rename_i cfg hcfg
    split at h
    · simp at h
    · rename_i subs hsubs
      split at h
      · simp at h
      · rename_i s hassign
        split at h
        · rename_i hmatch
          refine ⟨cfg, subs, s, hcfg, hsubs, hassign, hmatch, ?_⟩
          obtain ⟨h1, h2⟩ := Prod.mk.injEq .. ▸ h
          exact ⟨(Except.ok.injEq .. ▸ h1).symm, by rw [← h2, hcfg]⟩
        · simp at h

/-- Unfolding of `get_ips` on a present config document. -/
theorem get_ips_some (cfg : IpConfig) (containers : List String) :
    get_ips (some cfg) containers =
      Except.ok (scanAddresses cfg containers (List.range' 2 252)) := rfl

/-! Claim theorems. -/

/-- C2: address allocation returns the pair formed from the smallest
identifier in [2,253] whose derived IPv4 (base concatenated with the
identifier) is not taken, and the IPv6 of the returned pair is derived from
that same identifier. -/
theorem get_ips_returns_least_free (cfg : IpConfig) (containers : List String) (a : Nat)
    (h2 : 2 ≤ a) (h253 : a ≤ 253)
    (hfree : cfg.pre4 ++ toString a ∉ containers)
    (hmin : ∀ b, 2 ≤ b → b < a → cfg.pre4 ++ toString b ∈ containers) :
    get_ips (some cfg) containers =
      Except.ok (some (cfg.pre4 ++ toString a, cfg.pre6 ++ toString a)) := by
  rw [get_ips_some, scanAddresses_range' cfg containers 252 2 a h2 (by omega) hfree hmin]

/-- Witness for C2: with bases 10.0.0. and fd00:: and an empty taken set the
pair (10.0.0.2, fd00::2) is returned, and (10.0.0.3, fd00::3) once 10.0.0.2
is taken. -/
theorem get_ips_returns_least_free_witness :
    get_ips (some { pre4 := "10.0.0.", pre6 := "fd00::" }) [] =
      Except.ok (some ("10.0.0.2", "fd00::2")) ∧
    get_ips (some { pre4 := "10.0.0.", pre6 := "fd00::" }) ["10.0.0.2"] =
      Except.ok (some ("10.0.0.3", "fd00::3")) := by
  constructor
  · exact get_ips_returns_least_free { pre4 := "10.0.0.", pre6 := "fd00::" } [] 2
      (by decide) (by decide) (by decide) (fun b hb hb2 => absurd (lt_of_le_of_lt hb hb2) (lt_irrefl 2))
  · exact get_ips_returns_least_free { pre4 := "10.0.0.", pre6 := "fd00::" } ["10.0.0.2"] 3
      (by decide) (by decide) (by decide)
      (fun b hb hb2 => by
        have hb3 : b = 2 := by omega
        rw [hb3]
        decide)

/-- A taken set in which every identifier of range(2, 254) is claimed under
the base 10.0.0. -/
def fullTaken : List String :=
  (List.range' 2 252).map fun a => "10.0.0." ++ toString a

/-- C3 counterexample: with the config present and every identifier in
[2,253] taken, `get_ips` returns `Ok None` - the request returns nothing;
in particular it is not the capacity error the other endpoint raises on
exhaustion. -/
theorem get_ips_exhausted_no_error :
    get_ips (some { pre4 := "10.0.0.", pre6 := "fd00::" }) fullTaken = Except.ok none ∧
    get_ips (some { pre4 := "10.0.0.", pre6 := "fd00::" }) fullTaken ≠
      Except.error (ApiError.http 500 ("No available prefixes to assign")) := by
  have hall : ∀ b ∈ List.range' 2 252,
      ({ pre4 := "10.0.0.", pre6 := "fd00::" } : IpConfig).pre4 ++ toString b ∈ fullTaken := by
    intro b hb
    exact List.mem_map_of_mem _ hb
  have hmain : get_ips (some { pre4 := "10.0.0.", pre6 := "fd00::" }) fullTaken =
      Except.ok none := by
    rw [get_ips_some, scanAddresses_none { pre4 := "10.0.0.", pre6 := "fd00::" } fullTaken
      (List.range' 2 252) hall]
  refine ⟨hmain, fun he => ?_⟩
  rw [hmain] at he
  exact nomatch he

/-- C3 as amended: when every identifier in [2,253] is taken, `get_ips`
returns `Ok None` (the Python function falls off the end of its loop and
returns `None`) instead of raising an exhaustion error. -/
theorem get_ips_exhausted_returns_none (cfg : IpConfig) (containers : List String)
    (h : ∀ a, 2 ≤ a → a ≤ 253 → cfg.pre4 ++ toString a ∈ containers) :
    get_ips (some cfg) containers = Except.ok none := by
  have hall : ∀ b ∈ List.range' 2 252, cfg.pre4 ++ toString b ∈ containers := by
    intro b hb
    have hb2 := List.mem_range'_1.mp hb
    exact h b hb2.1 (by omega)
  rw [get_ips_some, scanAddresses_none cfg containers (List.range' 2 252) hall]

/-- Witness for the amended C3, at the concrete full taken set. -/
theorem get_ips_exhausted_returns_none_witness :
    get_ips (some { pre4 := "10.0.0.", pre6 := "fd00::" }) fullTaken = Except.ok none :=
  get_ips_exhausted_returns_none { pre4 := "10.0.0.", pre6 := "fd00::" } fullTaken
    (fun a h2 h253 => List.mem_map_of_mem _ (List.mem_range'_1.mpr ⟨h2, by omega⟩))

/-- C7: when the config document is absent, both operations fail with a
configuration failure that is distinct from the exhaustion error, regardless
of the taken sets, and `add_host` writes nothing. -/
theorem config_missing_fails (containers : List String) (db : Db) (host : HostReq)
    (hc : db.config = none) :
    get_ips none containers = Except.error (ApiError.exn ("Unable to find config document")) ∧
    (add_host db host).1 =
      Except.error (ApiError.typeError ("NoneType object is not subscriptable")) ∧
    (add_host db host).2 = db ∧
    ApiError.exn ("Unable to find config document") ≠
      ApiError.http 500 ("No available prefixes to assign") ∧
    ApiError.typeError ("NoneType object is not subscriptable") ≠
      ApiError.http 500 ("No available prefixes to assign") := by
  refine ⟨rfl, ?_, ?_, by decide, by decide⟩
  · unfold add_host
    rw [hc]
  · unfold add_host
    rw [hc]

/-- Witness for C7 at a concrete database with absent config. -/
theorem config_missing_fails_witness :
    get_ips none ["10.0.0.2"] =
      Except.error (ApiError.exn ("Unable to find config document")) ∧
    (add_host { config := none, pops := [{ name := "nyc", hosts := [] }] }
        { pop := "nyc", ip := "192.0.2.1" }).1 =
      Except.error (ApiError.typeError ("NoneType object is not subscriptable")) ∧
    (add_host { config := none, pops := [{ name := "nyc", hosts := [] }] }
        { pop := "nyc", ip := "192.0.2.1" }).2 =
      { config := none, pops := [{ name := "nyc", hosts := [] }] } ∧
    ApiError.exn ("Unable to find config document") ≠
      ApiError.http 500 ("No available prefixes to assign") ∧
    ApiError.typeError ("NoneType object is not subscriptable") ≠
      ApiError.http 500 ("No available prefixes to assign") :=
  config_missing_fails ["10.0.0.2"] { config := none, pops := [{ name := "nyc", hosts := [] }] }
    { pop := "nyc", ip := "192.0.2.1" } rfl

/-- C8: both allocators are deterministic - identical inputs give identical
results (no hidden randomness in either embedded operation). -/
theorem allocators_deterministic (c1 c2 : Option IpConfig) (t1 t2 : List String)
    (db1 db2 : Db) (r1 r2 : HostReq)
    (hc : c1 = c2) (ht : t1 = t2) (hdb : db1 = db2) (hr : r1 = r2) :
    get_ips c1 t1 = get_ips c2 t2 ∧ add_host db1 r1 = add_host db2 r2 := by
  subst hc
  subst ht
  subst hdb
  subst hr
  exact ⟨rfl, rfl⟩

/-- Witness for C8 at concrete inputs. -/
theorem allocators_deterministic_witness :
    get_ips (some { pre4 := "10.0.0.", pre6 := "fd00::" }) ["10.0.0.2"] =
      get_ips (some { pre4 := "10.0.0.", pre6 := "fd00::" }) ["10.0.0.2"] ∧
    add_host { config := none, pops := [] } { pop := "nyc", ip := "192.0.2.1" } =
      add_host { config := none, pops := [] } { pop := "nyc", ip := "192.0.2.1" } :=
  allocators_deterministic _ _ _ _ _ _ _ _ rfl rfl rfl rfl

/-- C4: when the parent block cannot be subnetted at /48 (its length exceeds
48) or every /48 subnet of it is already taken, `add_host` fails - with the
ValueError that `subnets` raises, or with the HTTP 500 capacity error - and
the database is left exactly as it was: no host is appended anywhere. -/
theorem add_host_exhausted (db : Db) (host : HostReq) (cfg : ParentConfig)
    (hc : db.config = some cfg)
    (h : 48 < cfg.pfx.plen ∨
      ∀ subs, subnets48 cfg.pfx = Except.ok subs →
        ∀ n ∈ subs, net_str n ∈ taken_prefixes db.pops) :
    ((add_host db host).1 = Except.error (ApiError.valueError ("new prefix must be longer")) ∨
     (add_host db host).1 = Except.error (ApiError.http 500 ("No available prefixes to assign"))) ∧
    (add_host db host).2 = db := by
  simp only [add_host, hc]
  by_cases hlen : 48 < cfg.pfx.plen
  · have hsub : subnets48 cfg.pfx =
        Except.error (ApiError.valueError ("new prefix must be longer")) := by
      unfold subnets48
      rw [if_pos hlen]
    simp only [hsub]
    exact ⟨Or.inl trivial, trivial⟩
  · have hsub : subnets48 cfg.pfx =
        Except.ok ((List.range (2 ^ (48 - cfg.pfx.plen))).map fun i =>
          { addr := cfg.pfx.addr + i * 2 ^ 80, plen := 48 }) := by
      unfold subnets48
      rw [if_neg hlen]
    rcases h with h | h
    · exact absurd h hlen
    · have hall := h _ hsub
      have hrev : ∀ n ∈ ((List.range (2 ^ (48 - cfg.pfx.plen))).map fun i =>
          ({ addr := cfg.pfx.addr + i * 2 ^ 80, plen := 48 } : IPv6Net)).reverse,
          net_str n ∈ taken_prefixes db.pops :=
        fun n hn => hall n (List.mem_reverse.mp hn)
      simp only [hsub]
      rw [assignLoop_all_taken (taken_prefixes db.pops) _ none hrev]
      exact ⟨Or.inr rfl, rfl⟩

/-- A /50 parent block: too small to carve /48 subnets from. -/
def dbSmallParent : Db :=
  { config := some { pfx := { addr := 0x20010db8 * 2 ^ 96, plen := 50 } },
    pops := [{ name := "nyc", hosts := [] }] }

/-- A /48 parent block whose single /48 subnet is already assigned. -/
def dbAllTaken : Db :=
  { config := some { pfx := { addr := 0x20010db8 * 2 ^ 96, plen := 48 } },
    pops := [{ name := "nyc",
               hosts := [{ pop := "nyc", ip := "192.0.2.1", pfx := "2001:db8::/48" }] }] }

/-- Witness for C4: both failure cases at concrete databases - a /50 parent
that cannot be subnetted, and a fully exhausted /48 parent. -/
theorem add_host_exhausted_witness :
    (((add_host dbSmallParent { pop := "nyc", ip := "192.0.2.2" }).1 =
        Except.error (ApiError.valueError ("new prefix must be longer")) ∨
      (add_host dbSmallParent { pop := "nyc", ip := "192.0.2.2" }).1 =
        Except.error (ApiError.http 500 ("No available prefixes to assign"))) ∧
     (add_host dbSmallParent { pop := "nyc", ip := "192.0.2.2" }).2 = dbSmallParent) ∧
    (((add_host dbAllTaken { pop := "nyc", ip := "192.0.2.2" }).1 =
        Except.error (ApiError.valueError ("new prefix must be longer")) ∨
      (add_host dbAllTaken { pop := "nyc", ip := "192.0.2.2" }).1 =
        Except.error (ApiError.http 500 ("No available prefixes to assign"))) ∧
     (add_host dbAllTaken { pop := "nyc", ip := "192.0.2.2" }).2 = dbAllTaken) := by
  constructor
  · exact add_host_exhausted dbSmallParent { pop := "nyc", ip := "192.0.2.2" }
      { pfx := { addr := 0x20010db8 * 2 ^ 96, plen := 50 } } rfl (Or.inl (by decide))
  · refine add_host_exhausted dbAllTaken { pop := "nyc", ip := "192.0.2.2" }
      { pfx := { addr := 0x20010db8 * 2 ^ 96, plen := 48 } } rfl (Or.inr ?_)
    intro subs hsubs n hn
    have h0 : subnets48 { addr := 0x20010db8 * 2 ^ 96, plen := 48 } =
        Except.ok [{ addr := 0x20010db8 * 2 ^ 96, plen := 48 }] := rfl
    rw [h0] at hsubs
    injection hsubs with hs
    rw [← hs] at hn
    rcases List.mem_singleton.mp hn with h1
    rw [h1]
    decide

/-- C5: under sequential execution a successful `add_host` preserves
fleet-wide prefix uniqueness: the candidate was tested against the prefixes
of every host of every PoP, so the stored prefix is new, exactly one prefix
is added, and the taken list stays duplicate-free. -/
theorem add_host_preserves_uniqueness (db : Db) (host : HostReq) (m : String) (db' : Db)
    (hnd : (taken_prefixes db.pops).Nodup)
    (h : add_host db host = (Except.ok m, db')) :
    (∃ s, s ∉ taken_prefixes db.pops ∧
        List.Perm (taken_prefixes db'.pops) (s :: taken_prefixes db.pops)) ∧
    (taken_prefixes db'.pops).Nodup := by
  obtain ⟨cfg, subs, s, hcfg, hsubs, hassign, hmatch, hm, hdb'⟩ :=
    add_host_ok_elim db host m db' h
  have hs : s ∉ taken_prefixes db.pops :=
    assignLoop_not_taken (taken_prefixes db.pops) subs.reverse none s
      (fun t ht => nomatch ht) hassign
  obtain ⟨A, p, B, hsplit, hA, hp, hres⟩ :=
    updateOnePush_matched host.pop { pop := host.pop, ip := host.ip, pfx := s } db.pops hmatch
  have hpops' : db'.pops =
      A ++ { p with hosts := p.hosts ++ [{ pop := host.pop, ip := host.ip, pfx := s }] } :: B := by
    rw [hdb']
    exact hres
  have hperm : List.Perm (taken_prefixes db'.pops) (s :: taken_prefixes db.pops) := by
    rw [hpops', hsplit]
    exact taken_prefixes_push p { pop := host.pop, ip := host.ip, pfx := s } B A
  exact ⟨⟨s, hs, hperm⟩, hperm.nodup_iff.mpr (List.nodup_cons.mpr ⟨hs, hnd⟩)⟩

/-- A one-PoP database under a /48 parent block with no host yet. -/
def dbOnePoP : Db :=
  { config := some { pfx := { addr := 0x20010db8 * 2 ^ 96, plen := 48 } },
    pops := [{ name := "nyc", hosts := [] }] }

/-- The database `dbOnePoP` after a successful `add_host` of 192.0.2.1. -/
def dbOnePoPAfter : Db :=
  { config := some { pfx := { addr := 0x20010db8 * 2 ^ 96, plen := 48 } },
    pops := [{ name := "nyc",
               hosts := [{ pop := "nyc", ip := "192.0.2.1", pfx := "2001:db8::/48" }] }] }

/-- Witness for C5 at a concrete successful request. -/
theorem add_host_preserves_uniqueness_witness :
    (∃ s, s ∉ taken_prefixes dbOnePoP.pops ∧
        List.Perm (taken_prefixes dbOnePoPAfter.pops) (s :: taken_prefixes dbOnePoP.pops)) ∧
    (taken_prefixes dbOnePoPAfter.pops).Nodup :=
  add_host_preserves_uniqueness dbOnePoP { pop := "nyc", ip := "192.0.2.1" }
    "Host added" dbOnePoPAfter (by decide) rfl

/-- C6: when no PoP of the store carries the requested name, `add_host`
never succeeds and leaves every PoP document unchanged; when the flow
reaches the update (config present, a candidate assigned), it fails with
the HTTP 422 PoP-does-not-exist error. -/
theorem add_host_pop_missing (db : Db) (host : HostReq)
    (hpop : ∀ p ∈ db.pops, p.name ≠ host.pop) :
    (∀ m, (add_host db host).1 ≠ Except.ok m) ∧
    (add_host db host).2 = db ∧
    (∀ cfg subs s, db.config = some cfg → subnets48 cfg.pfx = Except.ok subs →
      assignLoop (taken_prefixes db.pops) none subs.reverse = some s →
      (add_host db host).1 =
        Except.error (ApiError.http 422 ("PoP " ++ host.pop ++ " does not exist"))) := by
  cases hcfg : db.config with
  | none =>
    have hval : add_host db host =
        (Except.error (ApiError.typeError ("NoneType object is not subscriptable")), db) := by
      simp only [add_host, hcfg]
    rw [hval]
    exact ⟨(fun m hm => nomatch hm), rfl, (fun cfg subs s hsome _ _ => nomatch hsome)⟩
  | some cfg =>
    cases hs48 : subnets48 cfg.pfx with
    | error e =>
      have hval : add_host db host = (Except.error e, db) := by
        simp only [add_host, hcfg, hs48]
      rw [hval]
      refine ⟨(fun m hm => nomatch hm), rfl, ?_⟩
      intro cfg' subs s hsome hsubs _
      injection hsome with he
      rw [← he, hs48] at hsubs
      exact nomatch hsubs
    | ok subs =>
      cases hassign : assignLoop (taken_prefixes db.pops) none subs.reverse with
      | none =>
        have hval : add_host db host =
            (Except.error (ApiError.http 500 ("No available prefixes to assign")), db) := by
          simp only [add_host, hcfg, hs48, hassign]
        rw [hval]
        refine ⟨(fun m hm => nomatch hm), rfl, ?_⟩
        intro cfg' subs' s hsome hsubs hassign'
        injection hsome with he
        rw [← he, hs48] at hsubs
        injection hsubs with he2
        rw [← he2, hassign] at hassign'
        exact nomatch hassign'
      | some s =>
        have hupd : updateOnePush db.pops host.pop
            { pop := host.pop, ip := host.ip, pfx := s } = (db.pops, 0) :=
          updateOnePush_no_match host.pop { pop := host.pop, ip := host.ip, pfx := s }
            db.pops hpop
        have hval : add_host db host =
            (Except.error (ApiError.http 422 ("PoP " ++ host.pop ++ " does not exist")), db) := by
          simp only [add_host, hcfg, hs48, hassign, hupd]
          rw [if_neg (by decide : ¬((0 : Nat) = 1)), ← hcfg]
        rw [hval]
        exact ⟨(fun m hm => nomatch hm), rfl, (fun _ _ _ _ _ _ => rfl)⟩

/-- A database whose only PoP is named ams, under a /48 parent block. -/
def dbNoNyc : Db :=
  { config := some { pfx := { addr := 0x20010db8 * 2 ^ 96, plen := 48 } },
    pops := [{ name := "ams", hosts := [] }] }

/-- Witness for C6 at a request naming the absent PoP nyc. -/
theorem add_host_pop_missing_witness :
    (∀ m, (add_host dbNoNyc { pop := "nyc", ip := "192.0.2.1" }).1 ≠ Except.ok m) ∧
    (add_host dbNoNyc { pop := "nyc", ip := "192.0.2.1" }).2 = dbNoNyc ∧
    (∀ cfg subs s, dbNoNyc.config = some cfg → subnets48 cfg.pfx = Except.ok subs →
      assignLoop (taken_prefixes dbNoNyc.pops) none subs.reverse = some s →
      (add_host dbNoNyc { pop := "nyc", ip := "192.0.2.1" }).1 =
        Except.error (ApiError.http 422 ("PoP " ++ "nyc" ++ " does not exist"))) :=
  add_host_pop_missing dbNoNyc { pop := "nyc", ip := "192.0.2.1" } (by decide)

/-- C10: a successful `add_host` changes nothing but the single PoP document
whose name equals the request pop field: the config is unchanged, every PoP
before the target (none of which carries the name) and after it is kept
as-is, and the target keeps its existing host entries with exactly one host
document appended. -/
theorem add_host_frame (db : Db) (host : HostReq) (m : String) (db' : Db)
    (h : add_host db host = (Except.ok m, db')) :
    db'.config = db.config ∧
    ∃ A p B s, db.pops = A ++ p :: B ∧ (∀ q ∈ A, q.name ≠ host.pop) ∧ p.name = host.pop ∧
      db'.pops =
        A ++ { p with hosts := p.hosts ++ [{ pop := host.pop, ip := host.ip, pfx := s }] } :: B := by
  obtain ⟨cfg, subs, s, hcfg, hsubs, hassign, hmatch, hm, hdb'⟩ :=
    add_host_ok_elim db host m db' h
  obtain ⟨A, p, B, hsplit, hA, hp, hres⟩ :=
    updateOnePush_matched host.pop { pop := host.pop, ip := host.ip, pfx := s } db.pops hmatch
  refine ⟨by rw [hdb'], A, p, B, s, hsplit, hA, hp, ?_⟩
  rw [hdb']
  exact hres

/-- A two-PoP database: ams already holds a host, nyc is empty; the parent
block is a /48. -/
def dbTwoPops : Db :=
  { config := some { pfx := { addr := 0x20010db8 * 2 ^ 96, plen := 48 } },
    pops := [{ name := "ams",
               hosts := [{ pop := "ams", ip := "192.0.2.9", pfx := "2001:db8:ffff::/48" }] },
             { name := "nyc", hosts := [] }] }

/-- The database `dbTwoPops` after adding a host to nyc. -/
def dbTwoPopsAfter : Db :=
  { config := some { pfx := { addr := 0x20010db8 * 2 ^ 96, plen := 48 } },
    pops := [{ name := "ams",
               hosts := [{ pop := "ams", ip := "192.0.2.9", pfx := "2001:db8:ffff::/48" }] },
             { name := "nyc",
               hosts := [{ pop := "nyc", ip := "192.0.2.1", pfx := "2001:db8::/48" }] }] }

/-- Witness for C10 at a concrete two-PoP database. -/
theorem add_host_frame_witness :
    dbTwoPopsAfter.config = dbTwoPops.config ∧
    ∃ A p B s, dbTwoPops.pops = A ++ p :: B ∧ (∀ q ∈ A, q.name ≠ "nyc") ∧ p.name = "nyc" ∧
      dbTwoPopsAfter.pops =
        A ++ { p with hosts := p.hosts ++ [{ pop := "nyc", ip := "192.0.2.1", pfx := s }] } :: B :=
  add_host_frame dbTwoPops { pop := "nyc", ip := "192.0.2.1" } ("Host added")
    dbTwoPopsAfter rfl

/-- Parent block 2001:db8::/46 with one empty PoP: the failing input for the
descending-order claim. -/
def dbOrder : Db :=
  { config := some { pfx := { addr := 0x20010db8 * 2 ^ 96, plen := 46 } },
    pops := [{ name := "nyc", hosts := [] }] }

/-- C1: the code does not return the first free /48 of the descending
enumeration.  Under parent 2001:db8::/46 with an empty taken set the
descending enumeration visits 2001:db8:3::/48 first, yet the loop (which
never breaks) keeps overwriting the candidate and the host is stored with
the numerically lowest subnet 2001:db8::/48. -/
theorem add_host_assigns_lowest :
    add_host dbOrder { pop := "nyc", ip := "192.0.2.1" } =
      (Except.ok ("Host added"),
        { config := some { pfx := { addr := 0x20010db8 * 2 ^ 96, plen := 46 } },
          pops := [{ name := "nyc",
                     hosts := [{ pop := "nyc", ip := "192.0.2.1", pfx := "2001:db8::/48" }] }] }) ∧
    subnets48 { addr := 0x20010db8 * 2 ^ 96, plen := 46 } =
      Except.ok [{ addr := 0x20010db8 * 2 ^ 96, plen := 48 },
                 { addr := 0x20010db8 * 2 ^ 96 + 2 ^ 80, plen := 48 },
                 { addr := 0x20010db8 * 2 ^ 96 + 2 * 2 ^ 80, plen := 48 },
                 { addr := 0x20010db8 * 2 ^ 96 + 3 * 2 ^ 80, plen := 48 }] ∧
    net_str { addr := 0x20010db8 * 2 ^ 96 + 3 * 2 ^ 80, plen := 48 } = "2001:db8:3::/48" ∧
    ("2001:db8::/48" : String) ≠ "2001:db8:3::/48" := by
  refine ⟨rfl, rfl, rfl, by decide⟩
